import Mathlib

/-
Verification development for the IRR calculator front-end (api_client.js,
irr_ui.js) and its cash-flow / IRR engine.  Monetary values and rates are
embedded as rationals; a JavaScript number that may be NaN (the result of
parseFloat / parseInt on arbitrary text) is embedded as Option ℚ / Option ℤ
with none standing for NaN.  Components of the engine that are not part of
the shipped front-end sources (the Flask backend listed in README.md) are
modelled from the spec; each such definition says so in its doc comment.
-/

namespace IrrCalc

/-- Model of the JavaScript idiom parseFloat(x) || d: a NaN parse result or a
parsed value of 0 both fall back to the default d. -/
def jsOrQ (v : Option ℚ) (d : ℚ) : ℚ :=
  match v with
  | some q => if q = 0 then d else q
  | none => d

/-- Model of the JavaScript idiom parseInt(x) || d for integer form fields. -/
def jsOrZ (v : Option ℤ) (d : ℤ) : ℤ :=
  match v with
  | some n => if n = 0 then d else n
  | none => d

/-- Numeric value of a list of decimal digit characters. -/
def digitsVal (cs : List Char) : ℕ :=
  cs.foldl (fun n c => 10 * n + (c.toNat - 48)) 0

/-- Simplified model of the JavaScript numeric parse used on the pieces of the
colon-separated yearly input: an optional sign, an integer part and an
optional fractional part; none models a NaN result.  Exponents and the
trailing-garbage tolerance of the real builtin are not needed by any claim. -/
def parseFloatQ (s : String) : Option ℚ :=
  let cs := s.trim.toList
  let signAndRest : ℚ × List Char :=
    match cs with
    | '-' :: t => (-1, t)
    | '+' :: t => (1, t)
    | _ => (1, cs)
  let sgn := signAndRest.1
  let body := signAndRest.2
  let intPart := body.takeWhile Char.isDigit
  let rest := body.dropWhile Char.isDigit
  let fracPart : List Char :=
    match rest with
    | '.' :: t => t.takeWhile Char.isDigit
    | _ => []
  if intPart.isEmpty ∧ fracPart.isEmpty then none
  else some (sgn * ((digitsVal intPart : ℚ) + (digitsVal fracPart : ℚ) / 10 ^ fracPart.length))

/-- Modelled from the spec: the backend equipment-cost formula of section 4.1
(also printed in README.md); the Flask service computing it is not among the
shipped front-end sources. -/
def equipmentCostFormula (capacity pricePerKw profitRate developmentFee : ℚ) : ℚ :=
  ((pricePerKw / (1 - profitRate / 100)) + developmentFee) * capacity

/-- Embedding of calculate_equipment_cost (api_client.js lines 77-114): the
four form fields are parsed with parseFloat(...) || 0, the guard of lines
86-90 rejects invalid parameters before any computation, and on success the
backend formula value is returned.  The DOM writes of the original are pure
display and carry no computational state. -/
def calculate_equipment_cost (capacity pricePerKw profitRate developmentFee : Option ℚ) :
    Except String ℚ :=
  let c := jsOrQ capacity 0
  let p := jsOrQ pricePerKw 0
  let r := jsOrQ profitRate 0
  let f := jsOrQ developmentFee 0
  if c ≤ 0 ∨ p ≤ 0 ∨ r < 0 ∨ r ≥ 100 then
    Except.error "請輸入有效參數"
  else
    Except.ok (equipmentCostFormula c p r f)

/-- Parsed DOM state backing one line item (income, rent, maintenance,
insurance, recycling): the checked mode radio (none when nothing is checked),
the raw yearly text input, and the numeric fields of the range and kw_based
panes as parseFloat / parseInt results. -/
structure ModeFields where
  mode : Option String
  yearlyInput : String
  totalAmount : Option ℚ
  rangeStartYear : Option ℤ
  rangeEndYear : Option ℤ
  kwPricePerKw : Option ℚ
  kwStartYear : Option ℤ
  kwEndYear : Option ℤ
deriving DecidableEq

/-- Parsed DOM state backing the interest section: the no_interest_checkbox
and the three bank-loan fields as parse results. -/
structure InterestFields where
  noInterestChecked : Bool
  loanRatioInput : Option ℚ
  bankRateInput : Option ℚ
  repaymentPeriodInput : Option ℤ
deriving DecidableEq

/-- Parsed DOM state of the whole form, as read by collectFormData. -/
structure FormState where
  startYearInput : Option ℤ
  endYearInput : Option ℤ
  capacityInput : Option ℚ
  pricePerKwInput : Option ℚ
  profitRateInput : Option ℚ
  developmentFeeInput : Option ℚ
  incomeFields : ModeFields
  interestFields : InterestFields
  rentFields : ModeFields
  maintenanceFields : ModeFields
  insuranceFields : ModeFields
  recyclingFields : ModeFields
  taxRateInput : Option ℚ
  dividendShareInput : Option ℚ
  capitalReductionPeriodInput : Option ℤ
deriving DecidableEq

/-- Payload of the yearly mode of a line item. -/
structure YearlyData where
  yearlyValues : List ℚ
deriving DecidableEq

/-- Payload of the range mode of a line item. -/
structure RangeData where
  totalAmount : ℚ
  startYear : ℤ
  endYear : ℤ
deriving DecidableEq

/-- Payload of the kw_based mode of a line item. -/
structure KwBasedData where
  pricePerKw : ℚ
  startYear : ℤ
  endYear : ℤ
deriving DecidableEq

/-- Line-item object shipped to the backend (one mode tag plus three nullable
payload fields, as built by collectDataByMode). -/
structure LineItem where
  mode : String
  yearlyData : Option YearlyData
  rangeData : Option RangeData
  kwBasedData : Option KwBasedData
deriving DecidableEq

/-- Bank-loan record of the interest section; the source field names are
loan_ratio, bank_rate and repayment_period. -/
structure BankLoanData where
  loanRatioPercent : ℚ
  bankRatePercent : ℚ
  repaymentPeriod : ℤ
deriving DecidableEq

/-- Interest object shipped to the backend (built by collectInterestData). -/
structure InterestSpec where
  noInterest : Bool
  bankLoanData : Option BankLoanData
deriving DecidableEq

/-- Equipment parameters of the request object. -/
structure EquipmentParams where
  capacity : ℚ
  pricePerKw : ℚ
  profitRate : ℚ
  developmentFee : ℚ
deriving DecidableEq

/-- Cash-flow parameters of the request object; the source field names are
dividend_ratio and capital_reduction_period. -/
structure CashFlowParams where
  dividendShare : ℚ
  capitalReductionPeriod : ℤ
deriving DecidableEq

/-- Request object assembled by collectFormData (api_client.js lines 197-212). -/
structure RequestData where
  startYear : ℤ
  endYear : ℤ
  equipmentParams : EquipmentParams
  income : LineItem
  interest : InterestSpec
  rent : LineItem
  maintenance : LineItem
  insurance : LineItem
  recycling : LineItem
  taxRate : ℚ
  cashFlowParams : CashFlowParams
deriving DecidableEq

/-- Embedding of collectDataByMode (api_client.js lines 218-276): dispatch on
the checked mode radio; the yearly branch rejects an empty input and splits
the text on colons mapping each piece through the numeric parse with NaN sent
to 0; the range and kw_based branches read their numeric fields with the ||
defaults of the source; any other mode value is rejected. -/
def collectDataByMode (ty : String) (mf : ModeFields) : Except String LineItem :=
  match mf.mode with
  | none => Except.error ("請選擇 " ++ ty ++ " 的計算模式")
  | some mode =>
    if mode = "yearly" then
      if mf.yearlyInput.trim = "" then
        Except.error ("請輸入 " ++ ty ++ " 的年度數據")
      else
        let yearlyValues := (mf.yearlyInput.splitOn ":").map fun x =>
          (parseFloatQ x).getD 0
        Except.ok
          { mode := "yearly"
            yearlyData := some { yearlyValues := yearlyValues }
            rangeData := none
            kwBasedData := none }
    else if mode = "range" then
      Except.ok
        { mode := "range"
          yearlyData := none
          rangeData := some
            { totalAmount := jsOrQ mf.totalAmount 0
              startYear := jsOrZ mf.rangeStartYear 2025
              endYear := jsOrZ mf.rangeEndYear 2030 }
          kwBasedData := none }
    else if mode = "kw_based" then
      Except.ok
        { mode := "kw_based"
          yearlyData := none
          rangeData := none
          kwBasedData := some
            { pricePerKw := jsOrQ mf.kwPricePerKw 0
              startYear := jsOrZ mf.kwStartYear 2025
              endYear := jsOrZ mf.kwEndYear 2030 } }
    else
      Except.error ("不支援的模式: " ++ mode)

/-- Embedding of collectInterestData (api_client.js lines 281-316): the
checked no-interest box yields the no-interest record; otherwise the three
bank-loan fields are validated in source order (a NaN parse or an
out-of-range value raises the field's input error) and the validated values
are packed unchanged into the bank-loan record. -/
def collectInterestData (itf : InterestFields) : Except String InterestSpec :=
  if itf.noInterestChecked then
    Except.ok { noInterest := true, bankLoanData := none }
  else
    match itf.loanRatioInput with
    | none => Except.error "請輸入有效的貸款成數 (0-100%)"
    | some lr =>
      if lr ≤ 0 ∨ 100 < lr then Except.error "請輸入有效的貸款成數 (0-100%)"
      else
        match itf.bankRateInput with
        | none => Except.error "請輸入有效的銀行利率"
        | some br =>
          if br ≤ 0 then Except.error "請輸入有效的銀行利率"
          else
            match itf.repaymentPeriodInput with
            | none => Except.error "請輸入有效的攤還期數"
            | some rp =>
              if rp ≤ 0 then Except.error "請輸入有效的攤還期數"
              else
                Except.ok
                  { noInterest := false
                    bankLoanData := some
                      { loanRatioPercent := lr
                        bankRatePercent := br
                        repaymentPeriod := rp } }

/-- Embedding of collectFormData (api_client.js lines 159-213): years are read
with the source defaults 2025 and 2030, the two boundary checks of lines
165-170 run before anything else, then the line items and interest section are
collected in source order and the request object is assembled. -/
def collectFormData (fs : FormState) : Except String RequestData :=
  let startYear := jsOrZ fs.startYearInput 2025
  let endYear := jsOrZ fs.endYearInput 2030
  if startYear ≥ endYear then
    Except.error "結束年度必須大於起始年度"
  else if startYear < 1900 ∨ endYear < 1900 then
    Except.error "年度必須大於1900"
  else
    let equipmentParams : EquipmentParams :=
      { capacity := jsOrQ fs.capacityInput 0
        pricePerKw := jsOrQ fs.pricePerKwInput 0
        profitRate := jsOrQ fs.profitRateInput 0
        developmentFee := jsOrQ fs.developmentFeeInput 0 }
    match collectDataByMode "income" fs.incomeFields with
    | Except.error msg => Except.error msg
    | Except.ok income =>
      match collectInterestData fs.interestFields with
      | Except.error msg => Except.error msg
      | Except.ok interest =>
        match collectDataByMode "rent" fs.rentFields with
        | Except.error msg => Except.error msg
        | Except.ok rent =>
          match collectDataByMode "maintenance" fs.maintenanceFields with
          | Except.error msg => Except.error msg
          | Except.ok maintenance =>
            match collectDataByMode "insurance" fs.insuranceFields with
            | Except.error msg => Except.error msg
            | Except.ok insurance =>
              match collectDataByMode "recycling" fs.recyclingFields with
              | Except.error msg => Except.error msg
              | Except.ok recycling =>
                Except.ok
                  { startYear := startYear
                    endYear := endYear
                    equipmentParams := equipmentParams
                    income := income
                    interest := interest
                    rent := rent
                    maintenance := maintenance
                    insurance := insurance
                    recycling := recycling
                    taxRate := jsOrQ fs.taxRateInput 0
                    cashFlowParams :=
                      { dividendShare := jsOrQ fs.dividendShareInput 0
                        capitalReductionPeriod := jsOrZ fs.capitalReductionPeriodInput 1 } }

/-- Decidable equality for Except results, used to evaluate the embeddings on
concrete inputs. -/
instance {ε α : Type} [DecidableEq ε] [DecidableEq α] : DecidableEq (Except ε α) := fun a b =>
  match a, b with
  | Except.ok x, Except.ok y =>
    if h : x = y then isTrue (by rw [h])
    else isFalse (fun hc => h (Except.ok.inj hc))
  | Except.error x, Except.error y =>
    if h : x = y then isTrue (by rw [h])
    else isFalse (fun hc => h (Except.error.inj hc))
  | Except.ok _, Except.error _ => isFalse (fun hc => Except.noConfusion hc)
  | Except.error _, Except.ok _ => isFalse (fun hc => Except.noConfusion hc)

/-- Modelled from the spec: the per-year value of the Temporal Distributor's
RangeTotal branch (spec section 4.2); the engine itself is part of the Flask
backend and not among the shipped front-end sources.  Years inside the
intersection of the item's sub-range with the project span receive
total_amount / max(1, sub_range_years) where sub_range_years counts the years
of that intersection; years outside receive 0. -/
def rangeTotalValueAt (total : ℚ) (rs re ss se y : ℤ) : ℚ :=
  let cs := max rs ss
  let ce := min re se
  let subRangeYears : ℤ := ce - cs + 1
  if cs ≤ y ∧ y ≤ ce then total / ((max 1 subRangeYears : ℤ) : ℚ) else 0

/-- Modelled from the spec: the RangeTotal distribution over the whole span,
one value per project year, failing with InvalidRange when the item's start
year exceeds its end year (spec section 4.2). -/
def distributeRangeTotal (total : ℚ) (rs re ss se : ℤ) : Except String (List ℚ) :=
  if re < rs then Except.error "InvalidRange"
  else
    Except.ok ((List.range (se - ss + 1).toNat).map fun i : ℕ =>
      rangeTotalValueAt total rs re ss se (ss + (i : ℤ)))

/-- Modelled from the spec: the equal total-payment (annuity) installment of
the Loan Amortizer (spec section 4.3) for principal P at periodic rate r over
n yearly periods. -/
def annuityPayment (P r : ℚ) (n : ℕ) : ℚ :=
  P * r * (1 + r) ^ n / ((1 + r) ^ n - 1)

/-- Modelled from the spec: the end-of-year loan balance recurrence of the
Loan Amortizer, balance_0 = P and balance_k = balance_(k-1)·(1+r) − A, which
is the section 4.3 rule balance_k = balance_(k-1) − (A − balance_(k-1)·r). -/
def loanBalance (P r A : ℚ) : ℕ → ℚ
  | 0 => P
  | k + 1 => loanBalance P r A k * (1 + r) - A

/-- One year of the amortization schedule. -/
structure AmortEntry where
  interest : ℚ
  principalRepaid : ℚ
  balance : ℚ
deriving DecidableEq, Inhabited

/-- Modelled from the spec: the Loan Amortizer schedule over the project span
(spec section 4.3).  Principal is equipment_cost × loan_ratio/100, the
periodic rate is bank_rate/100; year k within the repayment period has
interest = balance_(k-1)·r, principal_repaid = A − interest and the new
balance; years beyond the repayment period are all zero. -/
def amortize (equipCost ratioPct ratePct : ℚ) (n spanLen : ℕ) : List AmortEntry :=
  let P := equipCost * ratioPct / 100
  let r := ratePct / 100
  let A := annuityPayment P r n
  (List.range spanLen).map fun i =>
    if i + 1 ≤ n then
      { interest := r * loanBalance P r A i
        principalRepaid := A - r * loanBalance P r A i
        balance := loanBalance P r A (i + 1) }
    else
      { interest := 0, principalRepaid := 0, balance := 0 }

/-- Modelled from the spec: the net-present-value function of the IRR Solver,
NPV(r) = Σ cash_flows[k] / (1+r)^k with k 0-indexed (spec section 4.7). -/
def npv (cfs : List ℚ) (r : ℚ) : ℚ :=
  (cfs.enum.map fun p => p.2 / (1 + r) ^ p.1).sum

/-- Fixed numeric tolerance of the IRR solver. -/
def irrTol : ℚ := 1 / 1000000

/-- Fixed iteration budget of the IRR solver. -/
def irrIterBudget : ℕ := 30

/-- Lower end of the solver's bounded search interval. -/
def irrSearchLo : ℚ := -(9 / 10)

/-- Upper end of the solver's bounded search interval. -/
def irrSearchHi : ℚ := 10

/-- Bounded bisection on the NPV sign change, consuming one unit of the
iteration budget per halving. -/
def bisectIrr (cfs : List ℚ) : ℕ → ℚ → ℚ → ℚ
  | 0, lo, hi => (lo + hi) / 2
  | fuel + 1, lo, hi =>
    let mid := (lo + hi) / 2
    if npv cfs lo * npv cfs mid ≤ 0 then bisectIrr cfs fuel lo mid
    else bisectIrr cfs fuel mid hi

/-- Modelled from the spec: the IRR Solver (spec section 4.7); the root
finder itself is backend code absent from the front-end sources.  It searches
a bounded interval with a fixed iteration budget, returns none when the NPV
has no sign change over the interval, and accepts a candidate only when the
NPV there is within the fixed tolerance of 0, returning none otherwise — the
acceptance check mandated by the spec's testable property. -/
def solve_irr (cfs : List ℚ) : Option ℚ :=
  if 0 < npv cfs irrSearchLo * npv cfs irrSearchHi then none
  else
    let r := bisectIrr cfs irrIterBudget irrSearchLo irrSearchHi
    if |npv cfs r| ≤ irrTol then some r else none

/-- Model of JavaScript Math.round, used on every money cell. -/
def jround (q : ℚ) : ℤ := Int.floor (q + 1 / 2)

/-- Text of one money cell of the rendered tables. -/
def moneyCell (q : ℚ) : String := toString (jround q)

/-- Embedding of the extended year list of generateCashFlowStatementTable
(api_client.js line 446): the project years plus one extra year used for the
IRR display (the source reads years[years.length - 1] + 1; the empty-list
corner, impossible for a successful response, is given the dummy last year
0). -/
def extendedYears (years : List ℤ) : List ℤ :=
  years ++ [years.getLast?.getD 0 + 1]

/-- Data cells of the statement table's header row (api_client.js lines
458-463): one cell per project year plus one blank cell for the extra IRR
year. -/
def headerCells (years : List ℤ) : List String :=
  (years.map fun y => toString y ++ "年") ++ [""]

/-- Data cells of a per-year statement row (api_client.js lines 476-486,
490-495, 508-516, 527-534, 578-582): one cell per statement record plus one
filler cell for the extra IRR year. -/
def statementRowCells (vals : List ℚ) : List String :=
  (vals.map moneyCell) ++ ["-"]

/-- Data cells of the cost-method cash-flow row (api_client.js lines
540-545): one cell per series element and no filler. -/
def costMethodRowCells (flows : List ℚ) : List String :=
  flows.map moneyCell

/-- Data cells of the equity-method cash-flow row (api_client.js lines
557-564): one cell per series element plus one filler cell, the series being
one year shorter than the cost-method one. -/
def equityMethodRowCells (flows : List ℚ) : List String :=
  (flows.map moneyCell) ++ ["-"]

/-- Alignment of the rendered statement table: every data row spans exactly
the header's data columns. -/
def statementTableAligned (years : List ℤ) (stmtVals costFlows equityFlows : List ℚ) : Prop :=
  (statementRowCells stmtVals).length = (headerCells years).length ∧
  (costMethodRowCells costFlows).length = (headerCells years).length ∧
  (equityMethodRowCells equityFlows).length = (headerCells years).length

/-- Rendering of one IRR value cell of the statement table. -/
inductive IrrCellRendering where
  | numericPercent (q : ℚ)
  | unableToCompute
deriving DecidableEq

/-- Embedding of the IRR cells of generateCashFlowStatementTable
(api_client.js lines 548-555 and 567-574): a non-null IRR renders as its
toFixed(2) percentage, a null one as the unable-to-compute message 無法計算.
The response object is the output of response.json, i.e. JSON.parse, whose
number values are null or finite numbers, embedded as Option ℚ. -/
def renderStatementIrrCell (irr : Option ℚ) : IrrCellRendering :=
  match irr with
  | some q => IrrCellRendering.numericPercent q
  | none => IrrCellRendering.unableToCompute

/-- Rendering of the main IRR block of displayAPIResults. -/
inductive MainIrrRendering where
  | successNumeric (q : ℚ)
  | unableMessage (msg : String)
deriving DecidableEq

/-- Embedding of the main IRR block of displayAPIResults (api_client.js lines
326-346): the numeric branch requires response.success and a non-null,
numeric irr; every other response renders the 無法計算IRR error block with
response.error or the fallback 未知錯誤.  A JSON-decoded irr is null or a
finite number (none embeds both a null and an absent/undefined field, which
the isNaN guard of line 326 also rejects); isNaN is false on every finite
number, so the guard never fires on the some case. -/
def displayMainIrr (success : Bool) (irr : Option ℚ) (errMsg : Option String) :
    MainIrrRendering :=
  match success, irr with
  | true, some q => MainIrrRendering.successNumeric q
  | true, none => MainIrrRendering.unableMessage (errMsg.getD "未知錯誤")
  | false, _ => MainIrrRendering.unableMessage (errMsg.getD "未知錯誤")

/-- Concrete line-item form state in range mode, used by witnesses. -/
def rangeModeFields : ModeFields :=
  { mode := some "range"
    yearlyInput := ""
    totalAmount := some 300
    rangeStartYear := some 2025
    rangeEndYear := some 2027
    kwPricePerKw := none
    kwStartYear := none
    kwEndYear := none }

/-- Concrete form state accepted by collectFormData, used by witnesses. -/
def fsGood : FormState :=
  { startYearInput := some 2025
    endYearInput := some 2027
    capacityInput := some 100
    pricePerKwInput := some 20000
    profitRateInput := some 10
    developmentFeeInput := some 50000
    incomeFields := rangeModeFields
    interestFields :=
      { noInterestChecked := true
        loanRatioInput := none
        bankRateInput := none
        repaymentPeriodInput := none }
    rentFields := rangeModeFields
    maintenanceFields := rangeModeFields
    insuranceFields := rangeModeFields
    recyclingFields := rangeModeFields
    taxRateInput := some 20
    dividendShareInput := some 0
    capitalReductionPeriodInput := some 5 }

/-- Concrete form state with reversed years, used by witnesses. -/
def fsBad : FormState :=
  { fsGood with startYearInput := some 2030, endYearInput := some 2020 }

/-- Request object produced from fsGood. -/
def reqGood : RequestData :=
  { startYear := 2025
    endYear := 2027
    equipmentParams :=
      { capacity := 100, pricePerKw := 20000, profitRate := 10, developmentFee := 50000 }
    income := { mode := "range", yearlyData := none
                rangeData := some { totalAmount := 300, startYear := 2025, endYear := 2027 }
                kwBasedData := none }
    interest := { noInterest := true, bankLoanData := none }
    rent := { mode := "range", yearlyData := none
              rangeData := some { totalAmount := 300, startYear := 2025, endYear := 2027 }
              kwBasedData := none }
    maintenance := { mode := "range", yearlyData := none
                     rangeData := some { totalAmount := 300, startYear := 2025, endYear := 2027 }
                     kwBasedData := none }
    insurance := { mode := "range", yearlyData := none
                   rangeData := some { totalAmount := 300, startYear := 2025, endYear := 2027 }
                   kwBasedData := none }
    recycling := { mode := "range", yearlyData := none
                   rangeData := some { totalAmount := 300, startYear := 2025, endYear := 2027 }
                   kwBasedData := none }
    taxRate := 20
    cashFlowParams := { dividendShare := 0, capitalReductionPeriod := 5 } }

/-- Line item produced from rangeModeFields. -/
def liRange : LineItem :=
  { mode := "range"
    yearlyData := none
    rangeData := some { totalAmount := 300, startYear := 2025, endYear := 2027 }
    kwBasedData := none }

end IrrCalc

namespace IrrCalc

theorem jsOrQ_some_zero (q : ℚ) : jsOrQ (some q) 0 = q := by
  by_cases h : q = 0 <;> simp [jsOrQ, h]

/-- C3: for every valid input the equipment cost produced by the computation
equals ((price_per_kw / (1 - profit_rate/100)) + development_fee) × capacity,
and at capacity=100, price_per_kw=20000, profit_rate=10, development_fee=50000
the cost is 65000000/9 = 7,222,222.2... -/
theorem C3_equipment_cost_formula (c p r f : ℚ)
    (hc : 0 < c) (hp : 0 < p) (hr0 : 0 ≤ r) (hr1 : r < 100) (hf : 0 ≤ f) :
    calculate_equipment_cost (some c) (some p) (some r) (some f) =
      Except.ok (((p / (1 - r / 100)) + f) * c) ∧
    calculate_equipment_cost (some 100) (some 20000) (some 10) (some 50000) =
      Except.ok (65000000 / 9) := by
  constructor
  · have hcond : ¬ (c ≤ 0 ∨ p ≤ 0 ∨ r < 0 ∨ r ≥ 100) := by
      push_neg
      exact ⟨hc, hp, hr0, hr1⟩
    simp only [calculate_equipment_cost, jsOrQ_some_zero, equipmentCostFormula]
    rw [if_neg hcond]
  · simp only [calculate_equipment_cost, jsOrQ_some_zero, equipmentCostFormula]
    norm_num

/-- Witness for C3 at the scenario input of the spec. -/
theorem C3_equipment_cost_formula_witness :
    calculate_equipment_cost (some 100) (some 20000) (some 10) (some 50000) =
      Except.ok (65000000 / 9) :=
  (C3_equipment_cost_formula 100 20000 10 50000 (by norm_num) (by norm_num)
    (by norm_num) (by norm_num) (by norm_num)).2

/-- C4: the equipment-cost computation fails (producing no cost value) exactly
when capacity ≤ 0, price_per_kw ≤ 0, profit_rate < 0 or profit_rate ≥ 100, and
for all other inputs it succeeds with the formula value; as a Lean function it
is pure, mirroring the side-effect-free computation of the source. -/
theorem C4_equipment_cost_validation (c p r f : ℚ) :
    ((∃ msg, calculate_equipment_cost (some c) (some p) (some r) (some f) =
        Except.error msg) ↔ (c ≤ 0 ∨ p ≤ 0 ∨ r < 0 ∨ 100 ≤ r)) ∧
    (¬ (c ≤ 0 ∨ p ≤ 0 ∨ r < 0 ∨ 100 ≤ r) →
      calculate_equipment_cost (some c) (some p) (some r) (some f) =
        Except.ok (equipmentCostFormula c p r f)) := by
  simp only [calculate_equipment_cost, jsOrQ_some_zero, ge_iff_le]
  constructor
  · constructor
    · intro ⟨msg, hmsg⟩
      by_contra hcond
      rw [if_neg (by push_neg at hcond ⊢; exact hcond)] at hmsg
      exact Except.noConfusion hmsg
    · intro hcond
      rw [if_pos (by tauto)]
      exact ⟨_, rfl⟩
  · intro hcond
    rw [if_neg (by tauto)]

/-- Witness for C4 on a concrete valid input. -/
theorem C4_equipment_cost_validation_witness :
    calculate_equipment_cost (some 10) (some 1000) (some 5) (some 0) =
      Except.ok (equipmentCostFormula 10 1000 5 0) :=
  (C4_equipment_cost_validation 10 1000 5 0).2 (by norm_num)

/-- C7: collectFormData rejects, before any collection work, every form whose
(defaulted) start year is not strictly below its end year or whose years fall
below 1900, and every request object it actually produces satisfies
start_year < end_year with both years at least 1900. -/
theorem C7_boundary_validation (fs : FormState) :
    ((jsOrZ fs.startYearInput 2025 ≥ jsOrZ fs.endYearInput 2030 ∨
        jsOrZ fs.startYearInput 2025 < 1900 ∨ jsOrZ fs.endYearInput 2030 < 1900) →
      ∃ msg, collectFormData fs = Except.error msg) ∧
    (∀ req, collectFormData fs = Except.ok req →
      req.startYear < req.endYear ∧ 1900 ≤ req.startYear ∧ 1900 ≤ req.endYear) := by
  set s := jsOrZ fs.startYearInput 2025 with hs
  set e := jsOrZ fs.endYearInput 2030 with he
  by_cases h1 : s ≥ e
  · constructor
    · intro _
      exact ⟨"結束年度必須大於起始年度",
        by simp only [collectFormData, ← hs, ← he, if_pos h1]⟩
    · intro req hreq
      simp only [collectFormData, ← hs, ← he, if_pos h1] at hreq
      exact Except.noConfusion hreq
  · by_cases h2 : s < 1900 ∨ e < 1900
    · constructor
      · intro _
        exact ⟨"年度必須大於1900",
          by simp only [collectFormData, ← hs, ← he, if_neg h1, if_pos h2]⟩
      · intro req hreq
        simp only [collectFormData, ← hs, ← he, if_neg h1, if_pos h2] at hreq
        exact Except.noConfusion hreq
    · constructor
      · intro hbad
        exact absurd hbad (by push_neg at h1 h2 ⊢; omega)
      · intro req hreq
        simp only [collectFormData, ← hs, ← he, if_neg h1, if_neg h2] at hreq
        rcases hI : collectDataByMode "income" fs.incomeFields with msg | income <;>
          rw [hI] at hreq
        · exact Except.noConfusion hreq
        rcases hJ : collectInterestData fs.interestFields with msg | interest <;>
          rw [hJ] at hreq
        · exact Except.noConfusion hreq
        rcases hR : collectDataByMode "rent" fs.rentFields with msg | rent <;>
          rw [hR] at hreq
        · exact Except.noConfusion hreq
        rcases hM : collectDataByMode "maintenance" fs.maintenanceFields with msg | m <;>
          rw [hM] at hreq
        · exact Except.noConfusion hreq
        rcases hN : collectDataByMode "insurance" fs.insuranceFields with msg | ins <;>
          rw [hN] at hreq
        · exact Except.noConfusion hreq
        rcases hC : collectDataByMode "recycling" fs.recyclingFields with msg | rec <;>
          rw [hC] at hreq
        · exact Except.noConfusion hreq
        cases hreq
        push_neg at h1 h2
        exact ⟨h1, h2.1, h2.2⟩

/-- C8: with bank-loan financing selected, collectInterestData fails exactly
when loan_ratio is outside (0, 100], bank_rate is not positive, the repayment
period is not positive, or any of the three parses to NaN; otherwise it
returns the bank-loan record carrying exactly the three validated values. -/
theorem C8_interest_validation (lr br : Option ℚ) (rp : Option ℤ) :
    ((∃ msg, collectInterestData ⟨false, lr, br, rp⟩ = Except.error msg) ↔
      ¬ ∃ q r n, lr = some q ∧ br = some r ∧ rp = some n ∧
          0 < q ∧ q ≤ 100 ∧ 0 < r ∧ 0 < n) ∧
    (∀ spec, collectInterestData ⟨false, lr, br, rp⟩ = Except.ok spec →
      ∃ q r n, lr = some q ∧ br = some r ∧ rp = some n ∧
        0 < q ∧ q ≤ 100 ∧ 0 < r ∧ 0 < n ∧
        spec = ⟨false, some ⟨q, r, n⟩⟩) := by
  rcases lr with _ | q
  · refine ⟨⟨fun _ => ?_, fun _ => ⟨_, rfl⟩⟩, fun spec hspec => Except.noConfusion hspec⟩
    rintro ⟨q', r', n', hq', hr', hn', h1, h2, h3, h4⟩
    exact Option.noConfusion hq'
  · by_cases hq : q ≤ 0 ∨ 100 < q
    · refine ⟨⟨fun _ => ?_, fun _ => ?_⟩, fun spec hspec => ?_⟩
      · rintro ⟨q', r', n', hq', hr', hn', h1, h2, h3, h4⟩
        obtain rfl : q = q' := Option.some.inj hq'
        rcases hq with h | h <;> linarith
      · simp only [collectInterestData]
        rw [if_pos hq]
        exact ⟨_, rfl⟩
      · simp only [collectInterestData, if_pos hq] at hspec
        exact Except.noConfusion hspec
    · rcases br with _ | r
      · refine ⟨⟨fun _ => ?_, fun _ => ?_⟩, fun spec hspec => ?_⟩
        · rintro ⟨q', r', n', hq', hr', hn', h1, h2, h3, h4⟩
          exact Option.noConfusion hr'
        · simp only [collectInterestData]
          rw [if_neg hq]
          exact ⟨_, rfl⟩
        · simp only [collectInterestData, if_neg hq] at hspec
          exact Except.noConfusion hspec
      · by_cases hr : r ≤ 0
        · refine ⟨⟨fun _ => ?_, fun _ => ?_⟩, fun spec hspec => ?_⟩
          · rintro ⟨q', r', n', hq', hr', hn', h1, h2, h3, h4⟩
            obtain rfl : r = r' := Option.some.inj hr'
            linarith
          · simp only [collectInterestData]
            rw [if_neg hq, if_pos hr]
            exact ⟨_, rfl⟩
          · simp only [collectInterestData, if_neg hq, if_pos hr] at hspec
            exact Except.noConfusion hspec
        · rcases rp with _ | n
          · refine ⟨⟨fun _ => ?_, fun _ => ?_⟩, fun spec hspec => ?_⟩
            · rintro ⟨q', r', n', hq', hr', hn', h1, h2, h3, h4⟩
              exact Option.noConfusion hn'
            · simp only [collectInterestData]
              rw [if_neg hq, if_neg hr]
              exact ⟨_, rfl⟩
            · simp only [collectInterestData, if_neg hq, if_neg hr] at hspec
              exact Except.noConfusion hspec
          · by_cases hn : n ≤ 0
            · refine ⟨⟨fun _ => ?_, fun _ => ?_⟩, fun spec hspec => ?_⟩
              · rintro ⟨q', r', n', hq', hr', hn', h1, h2, h3, h4⟩
                obtain rfl : n = n' := Option.some.inj hn'
                omega
              · simp only [collectInterestData]
                rw [if_neg hq, if_neg hr, if_pos hn]
                exact ⟨_, rfl⟩
              · simp only [collectInterestData, if_neg hq, if_neg hr, if_pos hn] at hspec
                exact Except.noConfusion hspec
            · push_neg at hq
              refine ⟨⟨fun hmsg => ?_, fun hno => ?_⟩, fun spec hspec => ?_⟩
              · obtain ⟨msg, hmsg⟩ := hmsg
                simp only [collectInterestData,
                  if_neg (by push_neg; exact hq : ¬ (q ≤ 0 ∨ 100 < q)),
                  if_neg hr, if_neg hn] at hmsg
                exact Except.noConfusion hmsg
              · exact absurd ⟨q, r, n, rfl, rfl, rfl, hq.1, hq.2,
                  lt_of_not_le hr, by omega⟩ hno
              · simp only [collectInterestData,
                  if_neg (by push_neg; exact hq : ¬ (q ≤ 0 ∨ 100 < q)),
                  if_neg hr, if_neg hn] at hspec
                cases hspec
                exact ⟨q, r, n, rfl, rfl, rfl, hq.1, hq.2,
                  lt_of_not_le hr, by omega, rfl⟩

/-- C10: every line item produced by collectDataByMode is a well-formed tagged
union (exactly the payload matching the mode tag is non-null), any mode other
than yearly, range or kw_based is rejected, and the interest object built by
collectInterestData has a null bank_loan_data exactly when no_interest is
true. -/
theorem C10_tagged_union (ty : String) (mf : ModeFields) :
    (∀ li, collectDataByMode ty mf = Except.ok li →
      (li.mode = "yearly" ∧ li.yearlyData.isSome ∧
        li.rangeData = none ∧ li.kwBasedData = none) ∨
      (li.mode = "range" ∧ li.yearlyData = none ∧
        li.rangeData.isSome ∧ li.kwBasedData = none) ∨
      (li.mode = "kw_based" ∧ li.yearlyData = none ∧
        li.rangeData = none ∧ li.kwBasedData.isSome)) ∧
    (∀ m, mf.mode = some m → m ≠ "yearly" → m ≠ "range" → m ≠ "kw_based" →
      ∃ msg, collectDataByMode ty mf = Except.error msg) ∧
    (∀ itf spec, collectInterestData itf = Except.ok spec →
      (spec.bankLoanData = none ↔ spec.noInterest = true)) := by
  refine ⟨?_, ?_, ?_⟩
  · intro li hli
    rcases hm : mf.mode with _ | mode
    · simp only [collectDataByMode, hm] at hli
      exact Except.noConfusion hli
    · simp only [collectDataByMode, hm] at hli
      split_ifs at hli <;>
        first
        | exact Except.noConfusion hli
        | (cases hli; simp)
  · intro m hm h1 h2 h3
    simp only [collectDataByMode, hm, if_neg h1, if_neg h2, if_neg h3]
    exact ⟨_, rfl⟩
  · intro itf spec hspec
    rcases itf with ⟨b, lr, br, rp⟩
    cases b
    · rcases lr with _ | q
      · exact Except.noConfusion hspec
      · by_cases hq : q ≤ 0 ∨ 100 < q
        · simp only [collectInterestData, if_pos hq] at hspec
          exact Except.noConfusion hspec
        · rcases br with _ | r
          · simp only [collectInterestData, if_neg hq] at hspec
            exact Except.noConfusion hspec
          · by_cases hr : r ≤ 0
            · simp only [collectInterestData, if_neg hq, if_pos hr] at hspec
              exact Except.noConfusion hspec
            · rcases rp with _ | n
              · simp only [collectInterestData, if_neg hq, if_neg hr] at hspec
                exact Except.noConfusion hspec
              · by_cases hn : n ≤ 0
                · simp only [collectInterestData, if_neg hq, if_neg hr,
                    if_pos hn] at hspec
                  exact Except.noConfusion hspec
                · simp only [collectInterestData, if_neg hq, if_neg hr,
                    if_neg hn] at hspec
                  cases hspec
                  simp
    · cases hspec
      simp

end IrrCalc

namespace IrrCalc

/-- Witness for C7: the reversed-year form is rejected and the request built
from the accepted form satisfies the year invariants. -/
theorem C7_boundary_validation_witness :
    (jsOrZ fsBad.startYearInput 2025 ≥ jsOrZ fsBad.endYearInput 2030 ∨
      jsOrZ fsBad.startYearInput 2025 < 1900 ∨ jsOrZ fsBad.endYearInput 2030 < 1900) ∧
    (∃ msg, collectFormData fsBad = Except.error msg) ∧
    (reqGood.startYear < reqGood.endYear ∧ 1900 ≤ reqGood.startYear ∧
      1900 ≤ reqGood.endYear) :=
  ⟨by decide, (C7_boundary_validation fsBad).1 (by decide),
    (C7_boundary_validation fsGood).2 reqGood (by rfl)⟩

/-- Witness for C8 on a concrete valid bank-loan input. -/
theorem C8_interest_validation_witness :
    ∃ q r n, (some (70 : ℚ)) = some q ∧ (some (2 : ℚ)) = some r ∧
      (some (10 : ℤ)) = some n ∧ 0 < q ∧ q ≤ 100 ∧ 0 < r ∧ 0 < n ∧
      ({ noInterest := false,
         bankLoanData := some
           { loanRatioPercent := 70, bankRatePercent := 2, repaymentPeriod := 10 } } :
        InterestSpec) = ⟨false, some ⟨q, r, n⟩⟩ :=
  (C8_interest_validation (some 70) (some 2) (some 10)).2
    ⟨false, some ⟨70, 2, 10⟩⟩ (by rfl)

/-- Witness for C10 on a concrete range-mode line item. -/
theorem C10_tagged_union_witness :
    (liRange.mode = "yearly" ∧ liRange.yearlyData.isSome ∧
      liRange.rangeData = none ∧ liRange.kwBasedData = none) ∨
    (liRange.mode = "range" ∧ liRange.yearlyData = none ∧
      liRange.rangeData.isSome ∧ liRange.kwBasedData = none) ∨
    (liRange.mode = "kw_based" ∧ liRange.yearlyData = none ∧
      liRange.rangeData = none ∧ liRange.kwBasedData.isSome) :=
  (C10_tagged_union "income" rangeModeFields).1 liRange (by rfl)

end IrrCalc

namespace IrrCalc

theorem list_range_map_sum (n : ℕ) (f : ℕ → ℚ) :
    ((List.range n).map f).sum = ∑ i in Finset.range n, f i := by
  induction n with
  | zero => simp
  | succ n ih =>
    rw [List.range_succ, List.map_append, List.sum_append, Finset.sum_range_succ, ih]
    simp

theorem sum_ite_window (len a b : ℕ) (c : ℚ) (hblen : b < len) :
    (∑ i in Finset.range len, if a ≤ i ∧ i ≤ b then c else 0) =
      ((b + 1 - a : ℕ) : ℚ) * c := by
  have h1 : ∀ i ∈ Finset.range len,
      (if a ≤ i ∧ i ≤ b then c else 0) = if i ∈ Finset.Icc a b then c else 0 := by
    intro i _
    simp only [Finset.mem_Icc]
  rw [Finset.sum_congr rfl h1, Finset.sum_ite_mem]
  have hsub : Finset.Icc a b ⊆ Finset.range len := by
    intro x hx
    rw [Finset.mem_Icc] at hx
    rw [Finset.mem_range]
    omega
  rw [Finset.inter_eq_right.mpr hsub, Finset.sum_const, Nat.card_Icc, nsmul_eq_mul]

/-- C5: a RangeTotal line item with an ordered sub-range meeting the span
distributes total_amount / max(1, sub_range_years) to every year of the
covered sub-range and 0 to every other year, and the distributed sequence
sums exactly to total_amount. -/
theorem C5_range_total_distribution (total : ℚ) (rs re ss se : ℤ)
    (hr : rs ≤ re) (hspan : ss ≤ se) (hint : max rs ss ≤ min re se) :
    (∀ y, max rs ss ≤ y → y ≤ min re se →
      rangeTotalValueAt total rs re ss se y =
        total / ((max 1 (min re se - max rs ss + 1) : ℤ) : ℚ)) ∧
    (∀ y, y < max rs ss ∨ min re se < y →
      rangeTotalValueAt total rs re ss se y = 0) ∧
    (∀ l, distributeRangeTotal total rs re ss se = Except.ok l → l.sum = total) := by
  refine ⟨?_, ?_, ?_⟩
  · intro y h1 h2
    simp only [rangeTotalValueAt]
    rw [if_pos ⟨h1, h2⟩]
  · intro y hy
    simp only [rangeTotalValueAt]
    rw [if_neg (by omega)]
  · intro l hl
    simp only [distributeRangeTotal, if_neg (not_lt.mpr hr)] at hl
    cases hl
    rw [list_range_map_sum]
    have hcs : ss ≤ max rs ss := le_max_right rs ss
    have hce : min re se ≤ se := min_le_right re se
    have hmax : (max 1 (min re se - max rs ss + 1) : ℤ) = min re se - max rs ss + 1 := by
      omega
    have key : ∀ i ∈ Finset.range (se - ss + 1).toNat,
        rangeTotalValueAt total rs re ss se (ss + (i : ℤ)) =
          if (max rs ss - ss).toNat ≤ i ∧ i ≤ (min re se - ss).toNat then
            total / ((min re se - max rs ss + 1 : ℤ) : ℚ) else 0 := by
      intro i _
      simp only [rangeTotalValueAt, hmax]
      by_cases hc : max rs ss ≤ ss + (i : ℤ) ∧ ss + (i : ℤ) ≤ min re se
      · rw [if_pos hc, if_pos (by omega)]
      · rw [if_neg hc, if_neg (by omega)]
    rw [Finset.sum_congr rfl key, sum_ite_window _ _ _ _ (by omega)]
    have hcast : (((min re se - ss).toNat + 1 - (max rs ss - ss).toNat : ℕ) : ℚ) =
        ((min re se - max rs ss + 1 : ℤ) : ℚ) := by
      have hEq : ((min re se - ss).toNat + 1 - (max rs ss - ss).toNat : ℕ) =
          (min re se - max rs ss + 1).toNat := by omega
      rw [hEq]
      have h0 : (0 : ℤ) ≤ min re se - max rs ss + 1 := by omega
      exact_mod_cast congrArg (fun z : ℤ => (z : ℚ)) (Int.toNat_of_nonneg h0)
    rw [hcast]
    have hne : ((min re se - max rs ss + 1 : ℤ) : ℚ) ≠ 0 := by
      have h0 : (0 : ℤ) < min re se - max rs ss + 1 := by omega
      exact_mod_cast ne_of_gt h0
    rw [mul_comm]
    exact div_mul_cancel₀ total hne

/-- Witness for C5 at the spec scenario: 300 over 2025-2027 on span 2025-2027
distributes to three years of 100 and sums back to 300. -/
theorem C5_range_total_distribution_witness :
    distributeRangeTotal 300 2025 2027 2025 2027 = Except.ok [100, 100, 100] ∧
    ([100, 100, 100] : List ℚ).sum = 300 := by
  have hA : distributeRangeTotal 300 2025 2027 2025 2027 =
      Except.ok [100, 100, 100] := by
    simp only [distributeRangeTotal, rangeTotalValueAt]
    norm_num [List.range_succ, Int.toNat_ofNat]
    decide
  exact ⟨hA, (C5_range_total_distribution 300 2025 2027 2025 2027
    (by norm_num) (by norm_num) (by norm_num)).2.2 [100, 100, 100] hA⟩

theorem loanBalance_closed (P r A : ℚ) (hr : r ≠ 0) (k : ℕ) :
    loanBalance P r A k = P * (1 + r) ^ k - A * ((1 + r) ^ k - 1) / r := by
  induction k with
  | zero => simp [loanBalance]
  | succ k ih =>
    rw [loanBalance, ih, pow_succ]
    field_simp
    ring

theorem loanBalance_annuity_zero (P r : ℚ) (hr : 0 < r) (n : ℕ) (hn : 1 ≤ n) :
    loanBalance P r (annuityPayment P r n) n = 0 := by
  have h1 : (1 : ℚ) < (1 + r) ^ n := one_lt_pow₀ (by linarith) (by omega)
  have h2 : (1 + r) ^ n - 1 ≠ 0 := ne_of_gt (by linarith)
  rw [loanBalance_closed P r _ (ne_of_gt hr), annuityPayment]
  field_simp
  ring

theorem loanBalance_principal_sum (P r A : ℚ) (m : ℕ) :
    ((List.range m).map fun k => A - r * loanBalance P r A k).sum =
      P - loanBalance P r A m := by
  induction m with
  | zero => simp [loanBalance]
  | succ m ih =>
    rw [List.range_succ, List.map_append, List.sum_append, ih, loanBalance]
    simp
    ring

theorem amortize_take (equipCost ratioPct ratePct : ℚ) (n spanLen : ℕ)
    (hspan : n ≤ spanLen) :
    (amortize equipCost ratioPct ratePct n spanLen).take n =
      (List.range n).map (fun i =>
        { interest := ratePct / 100 *
            loanBalance (equipCost * ratioPct / 100) (ratePct / 100)
              (annuityPayment (equipCost * ratioPct / 100) (ratePct / 100) n) i
          principalRepaid :=
            annuityPayment (equipCost * ratioPct / 100) (ratePct / 100) n -
              ratePct / 100 *
                loanBalance (equipCost * ratioPct / 100) (ratePct / 100)
                  (annuityPayment (equipCost * ratioPct / 100) (ratePct / 100) n) i
          balance :=
            loanBalance (equipCost * ratioPct / 100) (ratePct / 100)
              (annuityPayment (equipCost * ratioPct / 100) (ratePct / 100) n)
              (i + 1) }) := by
  simp only [amortize]
  rw [← List.map_take, List.take_range, min_eq_left hspan]
  apply List.map_congr_left
  intro i hi
  rw [List.mem_range] at hi
  rw [if_pos (by omega)]

/-- C6: for a bank loan whose repayment period fits in the project span, the
principal repayments of the amortization schedule over the repayment period
sum exactly to the borrowed principal equipment_cost × loan_ratio/100, and
the loan balance at the end of the repayment period is exactly 0. -/
theorem C6_amortization (equipCost ratioPct ratePct : ℚ) (n spanLen : ℕ)
    (hrate : 0 < ratePct) (hn : 1 ≤ n) (hspan : n ≤ spanLen) :
    (((amortize equipCost ratioPct ratePct n spanLen).take n).map
        (fun en => en.principalRepaid)).sum = equipCost * ratioPct / 100 ∧
    (((amortize equipCost ratioPct ratePct n spanLen).take n).map
        (fun en => en.balance)).getLast? = some 0 := by
  have hr : 0 < ratePct / 100 := by positivity
  constructor
  · rw [amortize_take _ _ _ _ _ hspan, List.map_map]
    simp only [Function.comp_def]
    rw [loanBalance_principal_sum, loanBalance_annuity_zero _ _ hr _ hn]
    ring
  · rw [amortize_take _ _ _ _ _ hspan, List.map_map]
    simp only [Function.comp_def]
    obtain ⟨m, rfl⟩ : ∃ m, n = m + 1 := ⟨n - 1, by omega⟩
    rw [List.range_succ, List.map_append, List.map_cons, List.map_nil,
      List.getLast?_concat]
    rw [loanBalance_annuity_zero _ _ hr _ hn]

/-- Witness for C6: a 100-unit loan (200 cost at 50 percent ratio) amortized
over 2 of 3 span years repays exactly 100 and ends at balance 0. -/
theorem C6_amortization_witness :
    (((amortize 200 50 100 2 3).take 2).map
        (fun en => en.principalRepaid)).sum = 200 * 50 / 100 ∧
    (((amortize 200 50 100 2 3).take 2).map
        (fun en => en.balance)).getLast? = some 0 :=
  C6_amortization 200 50 100 2 3 (by norm_num) (by norm_num) (by norm_num)

/-- C1: whenever the IRR solver returns a rate, the NPV of the series at that
rate is within the fixed tolerance of 0; when the NPV has no sign change over
the bounded search interval the solver returns none (and by the acceptance
check it also returns none whenever the budgeted iteration fails to reach the
tolerance), never an error. -/
theorem C1_solver_tolerance (cfs : List ℚ) :
    (∀ r, solve_irr cfs = some r → |npv cfs r| ≤ irrTol) ∧
    (0 < npv cfs irrSearchLo * npv cfs irrSearchHi → solve_irr cfs = none) := by
  constructor
  · intro r hr
    simp only [solve_irr] at hr
    by_cases h1 : 0 < npv cfs irrSearchLo * npv cfs irrSearchHi
    · rw [if_pos h1] at hr
      exact Option.noConfusion hr
    · rw [if_neg h1] at hr
      by_cases h2 : |npv cfs (bisectIrr cfs irrIterBudget irrSearchLo irrSearchHi)| ≤ irrTol
      · rw [if_pos h2] at hr
        cases hr
        exact h2
      · rw [if_neg h2] at hr
        exact Option.noConfusion hr
  · intro h
    simp only [solve_irr, if_pos h]

/-- Witness for C1: on the all-zero NPV series the solver succeeds and the
NPV at the returned rate is within tolerance. -/
theorem C1_solver_tolerance_witness :
    |npv [] ((solve_irr []).getD 0)| ≤ irrTol := by
  have h0 : ∀ r, npv [] r = 0 := fun r => rfl
  have h : solve_irr [] =
      some (bisectIrr [] irrIterBudget irrSearchLo irrSearchHi) := by
    simp only [solve_irr]
    rw [if_neg (by rw [h0, h0]; norm_num),
      if_pos (by rw [h0]; norm_num [irrTol])]
  exact (C1_solver_tolerance []).1 _ (by rw [h]; rfl)

/-- C9: a response with an absent (null) IRR renders the unable-to-compute
message both in the main result block and in the statement-table IRR cells,
and a numeric IRR is rendered only when the value really is a number (and,
for the main block, only on a success response). -/
theorem C9_unable_rendering (success : Bool) (irr : Option ℚ) (errMsg : Option String) :
    (irr = none →
      displayMainIrr success irr errMsg =
        MainIrrRendering.unableMessage (errMsg.getD "未知錯誤") ∧
      renderStatementIrrCell irr = IrrCellRendering.unableToCompute) ∧
    (∀ q, displayMainIrr success irr errMsg = MainIrrRendering.successNumeric q →
      success = true ∧ irr = some q) ∧
    (∀ q, renderStatementIrrCell irr = IrrCellRendering.numericPercent q →
      irr = some q) := by
  refine ⟨?_, ?_, ?_⟩
  · rintro rfl
    cases success <;> exact ⟨rfl, rfl⟩
  · intro q hq
    cases success <;> rcases irr with _ | v
    · exact MainIrrRendering.noConfusion hq
    · exact MainIrrRendering.noConfusion hq
    · exact MainIrrRendering.noConfusion hq
    · cases hq
      exact ⟨rfl, rfl⟩
  · intro q hq
    rcases irr with _ | v
    · exact IrrCellRendering.noConfusion hq
    · cases hq
      rfl

/-- Witness for C9 at a concrete absent IRR. -/
theorem C9_unable_rendering_witness :
    displayMainIrr true none none =
      MainIrrRendering.unableMessage ((none : Option String).getD "未知錯誤") ∧
    renderStatementIrrCell none = IrrCellRendering.unableToCompute :=
  (C9_unable_rendering true none none).1 rfl

/-- C2 counterexample: over a two-year span the claimed lengths (cost-method
series of N + 2 = 4 elements, equity of 3) cannot belong to a rendered
statement table: the header allocates exactly N + 1 data columns (the N
project years of lines 459-461 plus the single extra cell of line 463), and a
4-cell cost row does not align with it.  The renderer is the only code of the
repository touching the two series; its layout and its comments (cost-method
one year more than equity, one extra display year in total) fix cost = N + 1
and equity = N. -/
theorem C2_series_length_counterexample :
    ¬ statementTableAligned [2025, 2026] [0, 0] [0, 0, 0, 0] [0, 0, 0] := by
  intro h
  have h2 := h.2.1
  simp [costMethodRowCells, headerCells] at h2

/-- C2 amended: in every aligned rendering of the statement table over an
N-year span the cost-method series has exactly N + 1 elements — the length of
the extended year list of line 446 (initial outflow plus N years, the last
shown in the unlabeled extra column) — and the equity-method series has
exactly one element fewer. -/
theorem C2_series_length (years : List ℤ) (stmtVals costFlows equityFlows : List ℚ)
    (h : statementTableAligned years stmtVals costFlows equityFlows) :
    costFlows.length = years.length + 1 ∧
    costFlows.length = (extendedYears years).length ∧
    equityFlows.length = costFlows.length - 1 := by
  obtain ⟨h1, h2, h3⟩ := h
  simp only [statementRowCells, costMethodRowCells, equityMethodRowCells,
    headerCells, extendedYears, List.length_append, List.length_map,
    List.length_cons, List.length_nil] at h2 h3 ⊢
  omega

/-- Witness for C2 on a concrete aligned table over a two-year span. -/
theorem C2_series_length_witness :
    statementTableAligned [2025, 2026] [0, 0] [0, 0, 0] [0, 0] ∧
    (([0, 0, 0] : List ℚ).length = ([2025, 2026] : List ℤ).length + 1 ∧
      ([0, 0, 0] : List ℚ).length = (extendedYears [2025, 2026]).length ∧
      ([0, 0] : List ℚ).length = ([0, 0, 0] : List ℚ).length - 1) :=
  ⟨⟨rfl, rfl, rfl⟩,
    C2_series_length [2025, 2026] [0, 0] [0, 0, 0] [0, 0] ⟨rfl, rfl, rfl⟩⟩

end IrrCalc
